import Mathlib

/-!
Verification of the protocol engine of the FLIR PTU serial driver
(flirptu/ptu.py).  The Python code is shallowly embedded: ASCII text and
ASCII byte strings are both modelled as lists of characters, with an
explicit tag recording whether a value is a Python `str` or a Python
`bytes` (the two are never equal to each other in Python 3, which matters
for the mnemonic membership test in `send`).  Fallible Python code is
modelled with `Except PyErr`.
-/

namespace FlirPtu

/-- ASCII text, the common carrier for Python `str` and `bytes` content. -/
abbrev Str := List Char

/-- The Python exception classes the embedded code can raise. -/
inductive PyErr where
  | valueError
  | typeError
  | indexError
  | attributeError
deriving DecidableEq

/-- A Python value that is either a `str` or a `bytes` (ASCII content). -/
inductive PyData where
  | pystr (s : Str)
  | pybytes (s : Str)
deriving DecidableEq

/-- Python `==` between `str`/`bytes` values: equal only when the types
match and the contents match (`b"LE" == "LE"` is `False` in Python 3). -/
def pyEq : PyData → PyData → Bool
  | .pystr a, .pystr b => a == b
  | .pybytes a, .pybytes b => a == b
  | _, _ => false

/-- Python `x in l` for a list of `str`/`bytes` values, via `pyEq`. -/
def pyIn (x : PyData) (l : List PyData) : Bool :=
  l.any (fun y => pyEq x y)

/-- `str.upper()` / `bytes.upper()` (ASCII case mapping, `ptu.py:219`). -/
def pyUpper : PyData → PyData
  | .pystr s => .pystr (s.map Char.toUpper)
  | .pybytes s => .pybytes (s.map Char.toUpper)

/-- `str.encode()`: on a `str` it yields the `bytes`; calling it on a
`bytes` raises `AttributeError` (there is no `bytes.encode`), which is
exactly what `ptu.py:63` does. -/
def bytesEncode : PyData → Except PyErr PyData
  | .pystr s => .ok (.pybytes s)
  | .pybytes _ => .error .attributeError

/-- Python `+` on `str`/`bytes`: concatenation within one type,
`TypeError` across types. -/
def pyAdd : PyData → PyData → Except PyErr Str
  | .pystr a, .pystr b => .ok (a ++ b)
  | .pybytes a, .pybytes b => .ok (a ++ b)
  | _, _ => .error .typeError

/-- The response line terminator `self._TERM = b"\r\n"` (`ptu.py:13`). -/
def TERM : Str := '\r' :: '\n' :: []

/-- Python slice `s[a:b]` with a non-negative start `a` and a possibly
negative stop `b` (a negative stop counts from the end of the string). -/
def pySlice (s : Str) (a : Nat) (b : Int) : Str :=
  (s.take (if b < 0 then (b + s.length).toNat else min b.toNat s.length)).drop a

/-- `send` input validation (`ptu.py:219-230`): the candidate is upper-cased,
then its last character is required to be the space terminator; a `str`
candidate is encoded to `bytes`.  The returned value is the content of the
validated `bytes` frame.  An empty candidate raises `IndexError` (Python
evaluates `command[-1]` on an empty string); a candidate whose last
character is not a space raises `ValueError`. -/
def sendValidate (command : PyData) : Except PyErr Str :=
  match pyUpper command with
  | .pystr s =>
    match s.getLast? with
    | none => .error .indexError
    | some ch => if ch = ' ' then .ok s else .error .valueError
  | .pybytes s =>
    match s.getLast? with
    | none => .error .indexError
    | some ch => if ch = ' ' then .ok s else .error .valueError

/-- The limit-setting mnemonics of `ptu.py:233` — Python `str` literals. -/
def limitCmds : List PyData :=
  [.pystr "LE".toList, .pystr "LD".toList, .pystr "LU".toList,
   .pystr "PNU".toList, .pystr "PXU".toList, .pystr "TNU".toList,
   .pystr "TXU".toList]

/-- The execution-mode mnemonics of `ptu.py:236` — Python `str` literals. -/
def execCmds : List PyData := [.pystr "I".toList, .pystr "S".toList]

/-- The monitoring mnemonics of `ptu.py:239` — Python `str` literals. -/
def monCmds : List PyData := [.pystr "ME".toList, .pystr "MD".toList]

/-- The unsupported-command advisory block of `send` (`ptu.py:232-240`).
At this point `command` is always a `bytes` value, and `command[:-1]` is
tested for membership in lists of `str` literals. -/
def unsupportedWarnings (cmd : Str) : List Str :=
  if pyIn (.pybytes cmd.dropLast) limitCmds then
    ["Setting limits is not currently supported".toList]
  else if pyIn (.pybytes cmd.dropLast) execCmds then
    ["Changing execution mode is not currently supported".toList]
  else if pyIn (.pybytes cmd.dropLast) monCmds then
    ["Monitoring is not currently supported".toList]
  else []

/-- `__handle_async_input` (`ptu.py:60-64`): builds the advisory message
`"Device asynchronously displayed: " + contents.encode()`.  `contents` is
the `bytes` value returned by `serial.read`. -/
def handleAsyncInput (contents : PyData) : Except PyErr Str :=
  match bytesEncode contents with
  | .error e => .error e
  | .ok encoded => pyAdd (.pystr "Device asynchronously displayed: ".toList) encoded

/-- `__send_command` (`ptu.py:44-54`): `pending` is the content of the
bytes currently buffered on the port (`serial.in_waiting` of them); when
non-empty they are all read and passed to `__handle_async_input`, and only
then is the frame written.  Returns the advisory messages produced and the
bytes written to the port. -/
def sendCommandModel (pending : Str) (cmd : Str) :
    Except PyErr (List Str × Str) :=
  if pending.length > 0 then
    match handleAsyncInput (.pybytes pending) with
    | .error e => .error e
    | .ok w => .ok ([w], cmd)
  else .ok ([], cmd)

/-- The observable outcome of one successful `send` round trip. -/
structure SendOut where
  /-- The frame written to the serial port. -/
  frame : Str
  /-- The advisory (warning) messages emitted, in order. -/
  warnings : List Str
  /-- The cached echo state after the call. -/
  echoAfter : Bool
  /-- The value returned to the caller. -/
  payload : Str
deriving DecidableEq

/-- The echo-strip step of `send` (`ptu.py:250-253`): with `strip_echo`
and the (current) echo state both set, return
`response[len(command):len(response) - len(TERM)]`; otherwise return
`response[:len(response) - len(TERM)]`. -/
def stripResponse (stripEcho echo : Bool) (cmd resp : Str) : Str :=
  if stripEcho && echo then
    pySlice resp cmd.length ((resp.length : Int) - 2)
  else
    pySlice resp 0 ((resp.length : Int) - 2)

/-- `send` (`ptu.py:216-253`), with the serial port made explicit:
`pending` is what the port has buffered before the write, and `response`
is the line the port yields for `__get_response`.  The steps, in source
order: validate and frame the candidate (`219-230`), compute the
unsupported-command advisories (`232-240`), drain pending input and write
the frame (`242`, via `__send_command`), read the response (`243`), flip
the cached echo state if the frame was `b"EE "` or `b"ED "` (`245-248`),
and strip the echo prefix and terminator (`250-253`). -/
def send (echo : Bool) (pending : Str) (stripEcho : Bool)
    (command : PyData) (response : Str) : Except PyErr SendOut :=
  match sendValidate command with
  | .error e => .error e
  | .ok cmd =>
    let uw := unsupportedWarnings cmd
    match sendCommandModel pending cmd with
    | .error e => .error e
    | .ok (aw, frame) =>
      let echo2 := if cmd = "EE ".toList then true
        else if cmd = "ED ".toList then false
        else echo
      .ok ⟨frame, uw ++ aw, echo2, stripResponse stripEcho echo2 cmd response⟩

/-- The `echo` property setter (`ptu.py:142-153`): sends `b"EE "` or
`b"ED "`, reads the reply (`reply` here), discards it, and assigns the
cached state.  The new cached state is returned. -/
def echoSetter (enable : Bool) (reply : Str) : Bool :=
  if enable then true else false

/-- The acknowledgment inspection shared by every motion/speed mutation
(`ptu.py:264-268` and its eight clones): given the parsed reply payload
`resp` as returned by `send`, evaluate `resp[0] != '*'`; a non-`*` first
character warns with `label + resp` and returns `False`, a `*` returns
`True`, and an empty payload raises `IndexError` on `resp[0]`.  The result
pairs the returned boolean with the warnings emitted. -/
def ackCheck (label : Str) (resp : Str) : Except PyErr (Bool × List Str) :=
  match resp with
  | [] => .error .indexError
  | c :: _ => if c ≠ '*' then .ok (false, [label ++ resp]) else .ok (true, [])

/-- `setPanPosition` (`ptu.py:257-268`), from the parsed reply payload. -/
def setPanPosition (resp : Str) : Except PyErr (Bool × List Str) :=
  ackCheck "Pan position response: ".toList resp

/-- `setTiltPosition` (`ptu.py:270-281`), from the parsed reply payload. -/
def setTiltPosition (resp : Str) : Except PyErr (Bool × List Str) :=
  ackCheck "Tilt position response: ".toList resp

/-- `setPanSpeed` (`ptu.py:290-301`), from the parsed reply payload. -/
def setPanSpeed (resp : Str) : Except PyErr (Bool × List Str) :=
  ackCheck "Pan speed response: ".toList resp

/-- `setTiltSpeed` (`ptu.py:303-314`), from the parsed reply payload. -/
def setTiltSpeed (resp : Str) : Except PyErr (Bool × List Str) :=
  ackCheck "Tilt speed response: ".toList resp

/-- `setPositionAndSpeed` (`ptu.py:323-339`), from the parsed payload. -/
def setPositionAndSpeed (resp : Str) : Except PyErr (Bool × List Str) :=
  ackCheck "Set position and speed response: ".toList resp

/-- `setPanPositionOffset` (`ptu.py:382-394`), from the parsed payload. -/
def setPanPositionOffset (resp : Str) : Except PyErr (Bool × List Str) :=
  ackCheck "Pan position offset response: ".toList resp

/-- `setTiltPositionOffset` (`ptu.py:396-408`), from the parsed payload. -/
def setTiltPositionOffset (resp : Str) : Except PyErr (Bool × List Str) :=
  ackCheck "Tilt position offset response: ".toList resp

/-- `setPanSpeedOffset` (`ptu.py:418-430`), from the parsed payload. -/
def setPanSpeedOffset (resp : Str) : Except PyErr (Bool × List Str) :=
  ackCheck "Pan speed offset response: ".toList resp

/-- `setTiltSpeedOffset` (`ptu.py:432-444`), from the parsed payload. -/
def setTiltSpeedOffset (resp : Str) : Except PyErr (Bool × List Str) :=
  ackCheck "Tilt speed offset response: ".toList resp

/-- `halt` (`ptu.py:341-344`): evaluates `resp[0] == '*'` on the parsed
reply payload, with no warning branch; empty payload raises `IndexError`. -/
def halt (resp : Str) : Except PyErr Bool :=
  match resp with
  | [] => .error .indexError
  | c :: _ => .ok (c = '*')

/-- Python `str.split()` with no arguments: split on runs of whitespace
and drop the empty pieces. -/
def pySplit (s : Str) : List Str :=
  (List.splitOnP (fun c => c.isWhitespace) s).filter (fun t => t ≠ [])

/-- `_determine_control_mode` (`ptu.py:129-133`): evaluates
`"pos" if (response.split()[5].lower() == "independent") else "vel"` on
the reply payload; fewer than six tokens raises `IndexError`. -/
def determineControlMode (resp : Str) : Except PyErr Str :=
  match (pySplit resp)[5]? with
  | none => .error .indexError
  | some t =>
    .ok (if t.map Char.toLower = "independent".toList then "pos".toList
         else "vel".toList)

/-- The session-cached angular resolutions of the device profile
(`ptu.py:26-27`), modelled over `ℚ`. -/
structure DeviceProfile where
  /-- `self.__panResolution`, arc-seconds per pan position. -/
  panResolution : ℚ
  /-- `self.__tiltResolution`, arc-seconds per tilt position. -/
  tiltResolution : ℚ

/-- Python 3 `round` to the nearest integer, ties to the even neighbor,
modelled over `ℚ`. -/
def pyRound (q : ℚ) : ℤ :=
  let f : ℤ := Int.floor q
  let r : ℚ := q - f
  if r < 1 / 2 then f
  else if 1 / 2 < r then f + 1
  else if f % 2 = 0 then f else f + 1

/-- `panAngleToPosition` (`ptu.py:491-493`):
`round(angle / (self.panResolution / 3600))`. -/
def panAngleToPosition (p : DeviceProfile) (angle : ℚ) : ℤ :=
  pyRound (angle / (p.panResolution / 3600))

/-- `tiltAngleToPosition` (`ptu.py:495-497`):
`round(angle / (self.panResolution / 3600))` — the source reads
`self.panResolution` here, not `self.tiltResolution`. -/
def tiltAngleToPosition (p : DeviceProfile) (angle : ℚ) : ℤ :=
  pyRound (angle / (p.panResolution / 3600))

/-- Decidable equality of `Except` results, so that concrete runs of the
embedded code can be checked by evaluation. -/
instance {ε α : Type} [DecidableEq ε] [DecidableEq α] :
    DecidableEq (Except ε α) := fun x y =>
  match x, y with
  | .ok a, .ok b =>
    if h : a = b then .isTrue (by rw [h])
    else .isFalse (fun hh => by cases hh; exact h rfl)
  | .error a, .error b =>
    if h : a = b then .isTrue (by rw [h])
    else .isFalse (fun hh => by cases hh; exact h rfl)
  | .ok _, .error _ => .isFalse (fun hh => by cases hh)
  | .error _, .ok _ => .isFalse (fun hh => by cases hh)

/-- Evaluation of `Char.ofNat` on a valid codepoint. -/
lemma char_ofNat_toNat {n : Nat} (h : n.isValidChar) :
    (Char.ofNat n).toNat = n := by
  unfold Char.ofNat
  rw [dif_pos h]
  rfl

/-- Upper-casing maps no character onto the space character: `toUpper`
moves only the lower-case letters, whose images are upper-case letters. -/
lemma toUpper_eq_space_iff (c : Char) : c.toUpper = ' ' ↔ c = ' ' := by
  unfold Char.toUpper
  by_cases hc : c.toNat ≥ 97 ∧ c.toNat ≤ 122
  · rw [if_pos hc]
    constructor
    · intro h
      exfalso
      have hval : (Char.ofNat (c.toNat - 32)).toNat = c.toNat - 32 :=
        char_ofNat_toNat (Or.inl (by omega))
      rw [h] at hval
      have h32 : (' ' : Char).toNat = 32 := by decide
      omega
    · intro h
      subst h
      exact absurd hc (by decide)
  · rw [if_neg hc]

/-- Unfolding of a `send` whose candidate passes validation and whose port
has nothing buffered: the frame is written, the echo state is flipped when
the frame is the echo toggle, and the response is stripped under the
updated state. -/
lemma send_ok (e stripE : Bool) (cmd resp : Str) (d : PyData)
    (hv : sendValidate d = .ok cmd) :
    send e [] stripE d resp
      = .ok ⟨cmd, unsupportedWarnings cmd,
             (if cmd = "EE ".toList then true
              else if cmd = "ED ".toList then false else e),
             stripResponse stripE
               (if cmd = "EE ".toList then true
                else if cmd = "ED ".toList then false else e) cmd resp⟩ := by
  simp [send, hv, sendCommandModel]

/-- The unsupported-command advisory block never produces a warning: the
probe is a `bytes` value while the mnemonic lists hold `str` values, and
`pyEq` across the two types is always false. -/
lemma unsupportedWarnings_eq_nil (cmd : Str) : unsupportedWarnings cmd = [] := by
  simp [unsupportedWarnings, pyIn, limitCmds, execCmds, monCmds, pyEq]

/-- Slicing a terminated line up to `length - 2` removes exactly the
2-byte terminator, and the leading `a` bytes are dropped. -/
lemma pySlice_strip_term (core : Str) (a : Nat) :
    pySlice (core ++ TERM) a (((core ++ TERM).length : Int) - 2)
      = core.drop a := by
  have hlen : (core ++ TERM).length = core.length + 2 := by simp [TERM]
  unfold pySlice
  rw [hlen]
  have hb : ((core.length + 2 : Nat) : Int) - 2 = (core.length : Int) := by
    push_cast
    ring
  rw [hb]
  have hneg : ¬ ((core.length : Int) < 0) := by simp
  rw [if_neg hneg]
  have ht : ((core.length : Int)).toNat = core.length := by simp
  rw [ht]
  have hmin : min core.length (core.length + 2) = core.length := by omega
  rw [hmin]
  congr 1
  exact List.take_left core TERM

/-- Outcome of `send` validation on a candidate written as `rest ++ [c]`:
it succeeds exactly when the last character `c` is the space terminator,
and otherwise raises `ValueError`. -/
lemma sendValidate_eq (rest : Str) (c : Char) (d : PyData)
    (hd : d = .pystr (rest ++ [c]) ∨ d = .pybytes (rest ++ [c])) :
    sendValidate d
      = if c = ' ' then .ok ((rest ++ [c]).map Char.toUpper)
        else .error .valueError := by
  rcases hd with h | h <;> subst h <;>
    simp [sendValidate, pyUpper, toUpper_eq_space_iff]

/-- Contract of the shared acknowledgment inspection on a non-empty
payload: `True` exactly for a leading `*`, and otherwise `False` together
with one advisory holding the raw reply. -/
lemma ackCheck_spec (label : Str) (c : Char) (rest : Str) :
    (ackCheck label (c :: rest) = .ok (true, []) ↔ c = '*') ∧
    (c ≠ '*' → ackCheck label (c :: rest)
      = .ok (false, [label ++ (c :: rest)])) := by
  constructor
  · by_cases hc : c = '*' <;> simp [ackCheck, hc]
  · intro hc
    simp [ackCheck, hc]

/-- Claim C1 counterexample: with echo OFF before the toggle, the claim
says the `b"EE "` reply is read under the PRE-toggle assumption, so zero
leading bytes are stripped and the payload of a reply `"* OK\r\n"` would
be `"* OK"`.  In the code (`ptu.py:245-253`) the cached state is flipped
to `True` before the strip, `len(b"EE ") = 3` leading bytes are removed,
and the payload is `"K"`. -/
theorem sendToggleCounterexample :
    send false [] true (.pybytes "EE ".toList) "* OK\r\n".toList
      = .ok ⟨"EE ".toList, [], true, ['K']⟩ ∧
    (['K'] : Str) ≠ "* OK".toList := by
  decide

/-- Claim C1 (amended): the reply to an echo-toggle command is interpreted
under the POST-toggle echo assumption — `send` flips the cached EchoState
between reading the reply and stripping it, so the pre-toggle state has no
influence at all on the result of the call, and the number of leading
bytes stripped from the reply of the toggle itself is decided by the new
state (`len(command)` bytes after `b"EE "`, zero bytes after `b"ED "`). -/
theorem sendToggleUsesPostToggleState (e f : Bool) (resp : Str) :
    (send e [] true (.pybytes "EE ".toList) resp
      = send f [] true (.pybytes "EE ".toList) resp) ∧
    (send e [] true (.pybytes "ED ".toList) resp
      = send f [] true (.pybytes "ED ".toList) resp) ∧
    send e [] true (.pybytes "EE ".toList) resp
      = .ok ⟨"EE ".toList, [], true,
             stripResponse true true "EE ".toList resp⟩ ∧
    send e [] true (.pybytes "ED ".toList) resp
      = .ok ⟨"ED ".toList, [], false,
             stripResponse true false "ED ".toList resp⟩ := by
  have hvE : sendValidate (.pybytes "EE ".toList) = .ok "EE ".toList := by
    decide
  have hvD : sendValidate (.pybytes "ED ".toList) = .ok "ED ".toList := by
    decide
  have h1 : ∀ g : Bool, send g [] true (.pybytes "EE ".toList) resp
      = .ok ⟨"EE ".toList, [], true,
             stripResponse true true "EE ".toList resp⟩ := by
    intro g
    rw [send_ok g true _ resp _ hvE]
    rw [if_pos rfl, unsupportedWarnings_eq_nil]
  have h2 : ∀ g : Bool, send g [] true (.pybytes "ED ".toList) resp
      = .ok ⟨"ED ".toList, [], false,
             stripResponse true false "ED ".toList resp⟩ := by
    intro g
    rw [send_ok g true _ resp _ hvD]
    rw [if_neg (by decide), if_pos rfl, unsupportedWarnings_eq_nil]
  exact ⟨(h1 e).trans (h1 f).symm, (h2 e).trans (h2 f).symm, h1 e, h2 e⟩

/-- Claim C2, at the failing input: the membership test of
`ptu.py:233-240` compares the `bytes` value `command[:-1]` against lists
of `str` literals, which is always false in Python 3, so no
unsupported-command advisory is ever emitted (first conjunct); the frame
is still always transmitted, shown here for `b"LE "` (second conjunct). -/
theorem unsupportedAdvisoryDeadCode :
    (∀ cmd : Str, unsupportedWarnings cmd = []) ∧
    send false [] true (.pybytes "LE ".toList) "* ok\r\n".toList
      = .ok ⟨"LE ".toList, [], false, "* ok".toList⟩ :=
  ⟨unsupportedWarnings_eq_nil, by decide⟩

/-- Claim C3, at the failing input: whenever the port reports buffered
bytes before a send, `__handle_async_input` evaluates
`contents.encode()` on a `bytes` value and raises `AttributeError`, so
the unsolicited-input path always fails instead of emitting the advisory
— both in isolation and through a full `send` of a valid command. -/
theorem asyncInputPathRaises (pending : Str) (h : pending ≠ []) (cmd : Str)
    (e s : Bool) (r : Str) :
    sendCommandModel pending cmd = .error .attributeError ∧
    send e pending s (.pybytes "PP10 ".toList) r
      = .error .attributeError := by
  have hlen : pending.length > 0 := List.length_pos.mpr h
  have hm : ∀ c : Str, sendCommandModel pending c = .error .attributeError := by
    intro c
    simp [sendCommandModel, hlen, handleAsyncInput, bytesEncode]
  have hv : sendValidate (.pybytes ['P', 'P', '1', '0', ' '])
      = .ok ['P', 'P', '1', '0', ' '] := by decide
  exact ⟨hm cmd, by simp [send, hv, hm]⟩

/-- Concrete run of `asyncInputPathRaises`: five bytes `b"hello"` are
buffered before a `b"PP10 "` send, and the path raises `AttributeError`. -/
theorem asyncInputPathRaises_witness :
    sendCommandModel "hello".toList "PP10 ".toList
      = .error .attributeError ∧
    send true "hello".toList true (.pybytes "PP10 ".toList) "x\r\n".toList
      = .error .attributeError :=
  asyncInputPathRaises "hello".toList (by decide) "PP10 ".toList true true
    "x\r\n".toList

/-- Claim C4 counterexample: the echo setter records the new cached state
even when the device reply is empty (nothing was confirmed) or is
arbitrary garbage, and `send` records the `b"ED "` flip on an empty reply
— the cached state is mutated without the reply payload being inspected
anywhere. -/
theorem echoRecordedWithoutInspection :
    echoSetter true [] = true ∧
    echoSetter false "!ERROR\r\n".toList = false ∧
    send true [] true (.pybytes "ED ".toList) []
      = .ok ⟨"ED ".toList, [], false, []⟩ := by
  decide

/-- Claim C4 (amended): the cached EchoState update is unconditional — in
the echo setter (`ptu.py:142-153`) and in the `b"EE "`/`b"ED "` special
case of `send` (`ptu.py:245-248`) the reply is read and discarded, and
the recorded state does not depend on the reply in any way. -/
theorem echoUpdateIgnoresReply (enable e : Bool) (d : PyData)
    (r₁ r₂ : Str) :
    echoSetter enable r₁ = echoSetter enable r₂ ∧
    (send e [] true d r₁).map SendOut.echoAfter
      = (send e [] true d r₂).map SendOut.echoAfter := by
  refine ⟨rfl, ?_⟩
  cases hv : sendValidate d with
  | error err => simp [send, hv, Except.map]
  | ok cmd =>
    rw [send_ok e true cmd r₁ d hv, send_ok e true cmd r₂ d hv]
    rfl

/-- Claim C5: for every command and every terminated response line
`core ++ TERM`, the strip step of `send` (`ptu.py:250-253`) returns the
line with exactly `len(command)` leading bytes and the 2-byte terminator
removed when the echo state is true, and with only the terminator removed
(zero leading bytes) when it is false. -/
theorem readerStripContract (echo : Bool) (cmd core : Str) :
    stripResponse true echo cmd (core ++ TERM)
      = if echo then core.drop cmd.length else core := by
  cases echo with
  | true =>
    have hs := pySlice_strip_term core cmd.length
    simpa [stripResponse] using hs
  | false =>
    have hs := pySlice_strip_term core 0
    simpa [stripResponse] using hs

/-- Claim C6: every motion/speed mutation returns `True` exactly when the
first character of the parsed reply payload is `*`; any other leading
character yields a `False` return together with a non-fatal advisory
containing the raw reply, never an exception. -/
theorem motionAckContract (c : Char) (rest : Str) :
    ((setPanPosition (c :: rest) = .ok (true, []) ↔ c = '*') ∧
     (c ≠ '*' → setPanPosition (c :: rest)
        = .ok (false, ["Pan position response: ".toList ++ (c :: rest)]))) ∧
    ((setTiltPosition (c :: rest) = .ok (true, []) ↔ c = '*') ∧
     (c ≠ '*' → setTiltPosition (c :: rest)
        = .ok (false, ["Tilt position response: ".toList ++ (c :: rest)]))) ∧
    ((setPanSpeed (c :: rest) = .ok (true, []) ↔ c = '*') ∧
     (c ≠ '*' → setPanSpeed (c :: rest)
        = .ok (false, ["Pan speed response: ".toList ++ (c :: rest)]))) ∧
    ((setTiltSpeed (c :: rest) = .ok (true, []) ↔ c = '*') ∧
     (c ≠ '*' → setTiltSpeed (c :: rest)
        = .ok (false, ["Tilt speed response: ".toList ++ (c :: rest)]))) ∧
    ((setPositionAndSpeed (c :: rest) = .ok (true, []) ↔ c = '*') ∧
     (c ≠ '*' → setPositionAndSpeed (c :: rest)
        = .ok (false,
            ["Set position and speed response: ".toList ++ (c :: rest)]))) ∧
    ((setPanPositionOffset (c :: rest) = .ok (true, []) ↔ c = '*') ∧
     (c ≠ '*' → setPanPositionOffset (c :: rest)
        = .ok (false,
            ["Pan position offset response: ".toList ++ (c :: rest)]))) ∧
    ((setTiltPositionOffset (c :: rest) = .ok (true, []) ↔ c = '*') ∧
     (c ≠ '*' → setTiltPositionOffset (c :: rest)
        = .ok (false,
            ["Tilt position offset response: ".toList ++ (c :: rest)]))) ∧
    ((setPanSpeedOffset (c :: rest) = .ok (true, []) ↔ c = '*') ∧
     (c ≠ '*' → setPanSpeedOffset (c :: rest)
        = .ok (false,
            ["Pan speed offset response: ".toList ++ (c :: rest)]))) ∧
    ((setTiltSpeedOffset (c :: rest) = .ok (true, []) ↔ c = '*') ∧
     (c ≠ '*' → setTiltSpeedOffset (c :: rest)
        = .ok (false,
            ["Tilt speed offset response: ".toList ++ (c :: rest)]))) :=
  ⟨ackCheck_spec _ c rest, ackCheck_spec _ c rest, ackCheck_spec _ c rest,
   ackCheck_spec _ c rest, ackCheck_spec _ c rest, ackCheck_spec _ c rest,
   ackCheck_spec _ c rest, ackCheck_spec _ c rest, ackCheck_spec _ c rest⟩

/-- Concrete runs of `motionAckContract`: a reply `"!err"` returns `False`
with the advisory carrying the raw reply, and a reply `"*"` returns
`True`. -/
theorem motionAckContract_witness :
    setPanPosition ('!' :: "err".toList)
      = .ok (false,
          ["Pan position response: ".toList ++ ('!' :: "err".toList)]) ∧
    setPanPosition ('*' :: []) = .ok (true, []) :=
  ⟨(motionAckContract '!' "err".toList).1.2 (by decide),
   (motionAckContract '*' []).1.1.mpr rfl⟩

/-- Claim C7: a candidate command (text or byte form) whose last character
is not the single-space terminator makes `send` fail with `ValueError`
(the `InvalidCommandFormat` failure) before anything is written to the
port, for every echo state, pending buffer and response; and every
candidate ending in the space terminator passes validation, `send`
transmitting the upper-cased frame. -/
theorem sendTerminatorValidation (d : PyData) (c : Char) (rest : Str)
    (hd : d = .pystr (rest ++ [c]) ∨ d = .pybytes (rest ++ [c])) :
    (c ≠ ' ' → ∀ (e s : Bool) (p r : Str),
      send e p s d r = .error .valueError) ∧
    (c = ' ' → ∀ (e s : Bool) (r : Str), ∃ o : SendOut,
      send e [] s d r = .ok o ∧
      o.frame = (rest ++ [c]).map Char.toUpper) := by
  constructor
  · intro hc e s p r
    unfold send
    rw [sendValidate_eq rest c d hd, if_neg hc]
  · intro hc e s r
    have hv : sendValidate d = .ok ((rest ++ [c]).map Char.toUpper) := by
      rw [sendValidate_eq rest c d hd, if_pos hc]
    exact ⟨_, send_ok e s _ r d hv, rfl⟩

/-- Concrete runs of `sendTerminatorValidation`: the unterminated text
candidate `"pp10"` is rejected with `ValueError`, and the terminated byte
candidate `b"pp10 "` is transmitted as the upper-cased frame. -/
theorem sendTerminatorValidation_witness :
    send true "xyz".toList true (.pystr "pp10".toList) "resp".toList
      = .error .valueError ∧
    (∃ o : SendOut,
      send false [] true (.pybytes "pp10 ".toList) "ok\r\n".toList
        = .ok o ∧
      o.frame = ("pp10 ".toList).map Char.toUpper) :=
  ⟨(sendTerminatorValidation (.pystr "pp10".toList) '0' "pp1".toList
      (Or.inl (by decide))).1 (by decide) true true "xyz".toList
      "resp".toList,
   (sendTerminatorValidation (.pybytes "pp10 ".toList) ' ' "pp10".toList
      (Or.inr (by decide))).2 rfl false true "ok\r\n".toList⟩

/-- Claim C8: whenever the control-mode reply has a 6th
whitespace-delimited token, the resolved mode is `"pos"` (positional) if
and only if that token, lowercased, equals `"independent"`, and any other
6th token resolves to `"vel"` (velocity). -/
theorem controlModeSixthToken (resp t : Str)
    (h : (pySplit resp)[5]? = some t) :
    (determineControlMode resp = .ok "pos".toList
      ↔ t.map Char.toLower = "independent".toList) ∧
    (¬ t.map Char.toLower = "independent".toList
      → determineControlMode resp = .ok "vel".toList) := by
  have hd : determineControlMode resp
      = .ok (if t.map Char.toLower = "independent".toList then "pos".toList
             else "vel".toList) := by
    unfold determineControlMode
    rw [h]
  constructor
  · constructor
    · intro hok
      by_contra ht
      rw [hd, if_neg ht] at hok
      have hvp : ("vel".toList : Str) = "pos".toList := by injection hok
      exact absurd hvp (by decide)
    · intro ht
      rw [hd, if_pos ht]
  · intro ht
    rw [hd, if_neg ht]

/-- Concrete run of `controlModeSixthToken` on the documented reply
`"* PTU is in Independent Mode"`: its 6th token is `"Mode"`, which is not
`"independent"` once lowercased, so the code resolves velocity mode. -/
theorem controlModeSixthToken_witness :
    (pySplit "* PTU is in Independent Mode".toList)[5]?
      = some "Mode".toList ∧
    determineControlMode "* PTU is in Independent Mode".toList
      = .ok "vel".toList :=
  ⟨by decide,
   (controlModeSixthToken "* PTU is in Independent Mode".toList
      "Mode".toList (by decide)).2 (by decide)⟩

/-- Claim C9: `panAngleToPosition` equals
`round(angle * 3600 / panResolution)` (the division by
`panResolution / 3600` in the source is the same exact rational value),
`tiltAngleToPosition` computes the identical formula — including the PAN
resolution term — and the two functions agree on every input; both are
pure functions of the cached profile. -/
theorem angleToPositionFormula (p : DeviceProfile) (angle : ℚ) :
    panAngleToPosition p angle
      = pyRound (angle * 3600 / p.panResolution) ∧
    tiltAngleToPosition p angle
      = pyRound (angle * 3600 / p.panResolution) ∧
    tiltAngleToPosition p angle = panAngleToPosition p angle := by
  unfold panAngleToPosition tiltAngleToPosition
  rw [div_div_eq_mul_div]
  exact ⟨rfl, rfl, rfl⟩

/-- Claim C10: on an empty parsed reply payload (a port read timeout
yields no bytes), every motion/speed mutation and `halt` raise
`IndexError` on `resp[0]` instead of returning `False`. -/
theorem emptyReplyIndexError :
    setPanPosition [] = .error .indexError ∧
    setTiltPosition [] = .error .indexError ∧
    setPanSpeed [] = .error .indexError ∧
    setTiltSpeed [] = .error .indexError ∧
    setPositionAndSpeed [] = .error .indexError ∧
    setPanPositionOffset [] = .error .indexError ∧
    setTiltPositionOffset [] = .error .indexError ∧
    setPanSpeedOffset [] = .error .indexError ∧
    setTiltSpeedOffset [] = .error .indexError ∧
    halt [] = .error .indexError :=
  ⟨by decide, by decide, by decide, by decide, by decide, by decide,
   by decide, by decide, by decide, by decide⟩

end FlirPtu


